import Mathlib

/-!
Verification of the Tutor repository's signal-to-action core against its
natural-language specification.  The definitions below are a shallow
embedding of the Python sources:

* `src/main.py` — `SecurityState` and `handle_security_warnings`;
* `src/gestures/gesture_mapper.py` — `GestureMapper.handle`;
* `src/gestures/actions.py` — `DesktopActions` (state and the actions the
  mapper can invoke, modelled as emitted events);
* `src/vision/hand_tracker.py` — the gesture-stability buffer and
  `_stable_gesture`.

Wall-clock time is modelled as a rational number; one time value is read
per pass, matching the frame-synchronous model.  Python's `int()`
truncation on floats is modelled by `pyInt` (truncation toward zero on ℚ).
Side effects (invoking the screen lock, dispatching a desktop action) are
modelled as explicit outputs of the step functions.
-/

namespace Tutor

/-- The closed gesture vocabulary shared by the tracker and the mapper
(`GESTURES` dictionaries in `hand_tracker.py` and `gesture_mapper.py`). -/
inductive GestureLabel where
  | NO_HAND
  | OPEN_PALM
  | FIST
  | POINT
  | PINCH
  | UNKNOWN
deriving DecidableEq, Repr, Fintype

/-- The identity signal produced by `FaceRecognizer.process`
(`None`, `"UNREGISTERED"`, `"UNKNOWN"`, `"AUTHORIZED"`). -/
inductive IdentityLabel where
  | NONE
  | UNREGISTERED
  | UNKNOWN
  | AUTHORIZED
deriving DecidableEq, Repr, Fintype

/-- Python's `int()` applied to a real value: truncation toward zero. -/
def pyInt (q : ℚ) : ℤ := if 0 ≤ q then ⌊q⌋ else ⌈q⌉

/-- `BLUR_DURATION = 1.5` from `src/main.py`. -/
def BLUR_DURATION : ℚ := 3 / 2

/-- `SecurityState` from `src/main.py` (fields of `__init__`). -/
structure SecurityState where
  blur_start_time : Option ℚ
  lock_triggered : Bool
  blur_strength : ℤ
deriving DecidableEq, Repr

/-- `SecurityState.__init__`. -/
def SecurityState.init : SecurityState :=
  { blur_start_time := none, lock_triggered := false, blur_strength := 5 }

/-- `SecurityState.start_blur`: record the current time and raise the flag. -/
def SecurityState.start_blur (now : ℚ) (st : SecurityState) : SecurityState :=
  { st with blur_start_time := some now, lock_triggered := true }

/-- `SecurityState.reset`: clear timer, flag and blur strength. -/
def SecurityState.reset : SecurityState :=
  { blur_start_time := none, lock_triggered := false, blur_strength := 5 }

/-- `SecurityState.should_lock`: true when the blur timer is set and at least
`BLUR_DURATION` has elapsed since it was set. -/
def SecurityState.should_lock (now : ℚ) (st : SecurityState) : Bool :=
  match st.blur_start_time with
  | none => false
  | some t0 => decide (BLUR_DURATION ≤ now - t0)

/-- `SecurityState.update_blur_progress`: returns the strength that is applied
to the frame together with the updated state. -/
def SecurityState.update_blur_progress (now : ℚ) (st : SecurityState) :
    ℤ × SecurityState :=
  match st.blur_start_time with
  | none => (st.blur_strength, st)
  | some t0 =>
      let elapsed := now - t0
      let progress := min (elapsed / BLUR_DURATION) 1
      let s := pyInt (5 + progress * 45)
      (s, { st with blur_strength := s })

/-- Result of one call to `handle_security_warnings`: the new state, whether
`lock_screen()` was invoked during the call, and the blur strength applied to
the frame (`none` when `apply_blur` was not called). -/
structure SecResult where
  state : SecurityState
  locked : Bool
  blurApplied : Option ℤ
deriving DecidableEq, Repr

/-- `handle_security_warnings` from `src/main.py`: one per-frame evaluation of
the security latch, with `now` the wall-clock reading of the pass. -/
def handle_security_warnings (ident : IdentityLabel) (face_absent : Bool)
    (now : ℚ) (st : SecurityState) : SecResult :=
  if ident = .UNKNOWN ∧ st.lock_triggered = false then
    let p := st.update_blur_progress now
    if p.2.should_lock now then
      { state := SecurityState.reset, locked := true, blurApplied := some p.1 }
    else
      { state := p.2, locked := false, blurApplied := some p.1 }
  else if face_absent = true ∧ st.lock_triggered = false then
    let st1 := st.start_blur now
    if st1.should_lock now then
      { state := SecurityState.reset, locked := true, blurApplied := none }
    else
      { state := st1, locked := false, blurApplied := none }
  else
    { state := SecurityState.reset, locked := false, blurApplied := none }

/-- The blur-strength formula of `update_blur_progress`, as a function of
elapsed time since the recorded onset. -/
def blurFormula (elapsed : ℚ) : ℤ :=
  pyInt (5 + min (elapsed / BLUR_DURATION) 1 * 45)

/-- The mutable fields of `GestureMapper` (`src/gestures/gesture_mapper.py`):
the previously-seen label, the time of the last qualifying edge, and the
dispatcher's cooldown (0.8 s by default, fixed at construction). -/
structure MapperState where
  prev_gesture : GestureLabel
  last_action_time : ℚ
  cooldown : ℚ
deriving DecidableEq, Repr

/-- The mutable fields of `DesktopActions` (`src/gestures/actions.py`). -/
structure ActionsState where
  control_enabled : Bool
  last_action : Option String
deriving DecidableEq, Repr

/-- Observable side effects a call to `GestureMapper.handle` can produce:
the control toggle or one of the desktop actions of the action map. -/
inductive ActionEvent where
  | toggled
  | play_pause
  | next_desktop
  | volume_up
deriving DecidableEq, Repr

/-- Result of one call to `GestureMapper.handle`: updated mapper state,
updated actions state, and the events dispatched during the call, in order. -/
structure HandleResult where
  mapper : MapperState
  actions : ActionsState
  events : List ActionEvent
deriving DecidableEq, Repr

/-- `DesktopActions.toggle_control`. -/
def ActionsState.toggle_control (a : ActionsState) : ActionsState :=
  { a with control_enabled := !a.control_enabled }

/-- `GestureMapper._execute_action`: look the label up in the action map and
run it (the actions record their name in `last_action`); labels outside the
map dispatch nothing. -/
def execute_action (g : GestureLabel) (a : ActionsState) :
    ActionsState × List ActionEvent :=
  match g with
  | .FIST => ({ a with last_action := some "play_pause" }, [.play_pause])
  | .POINT => ({ a with last_action := some "next_desktop" }, [.next_desktop])
  | .PINCH => ({ a with last_action := some "volume_up" }, [.volume_up])
  | _ => (a, [])

/-- `GestureMapper.handle`: cooldown gate first (which still overwrites
`prev_gesture` before returning), then edge detection; on an edge,
`last_action_time` is stamped, `OPEN_PALM` toggles control and returns, and
other labels run `_execute_action` only when control is enabled. -/
def GestureMapper.handle (g : GestureLabel) (now : ℚ) (m : MapperState)
    (a : ActionsState) : HandleResult :=
  if now - m.last_action_time < m.cooldown then
    { mapper := { m with prev_gesture := g }, actions := a, events := [] }
  else if g ≠ m.prev_gesture then
    let m1 := { m with last_action_time := now }
    if g = .OPEN_PALM then
      { mapper := { m1 with prev_gesture := g },
        actions := a.toggle_control, events := [.toggled] }
    else if a.control_enabled then
      let r := execute_action g a
      { mapper := { m1 with prev_gesture := g }, actions := r.1, events := r.2 }
    else
      { mapper := { m1 with prev_gesture := g }, actions := a, events := [] }
  else
    { mapper := { m with prev_gesture := g }, actions := a, events := [] }

/-- Repeated calls to `handle` with a constant label at the given times
(`src/main.py` calls `mapper.handle(gesture)` once per frame). -/
def handleRun (g : GestureLabel) (times : List ℚ) (m : MapperState)
    (a : ActionsState) : HandleResult :=
  times.foldl
    (fun r t =>
      let r' := GestureMapper.handle g t r.mapper r.actions
      { mapper := r'.mapper, actions := r'.actions, events := r.events ++ r'.events })
    { mapper := m, actions := a, events := [] }

/-- The label strings `HandTracker` actually emits: the values of its
`GESTURES` dictionary (`src/vision/hand_tracker.py`), all uppercase.
`_stable_gesture` only ever returns these (the initial `"NO_HAND"` or an
element of the buffer, which holds classification outputs). -/
def trackerLabel : GestureLabel → String
  | .NO_HAND => "NO_HAND"
  | .OPEN_PALM => "OPEN_PALM"
  | .FIST => "FIST"
  | .POINT => "POINT"
  | .PINCH => "PINCH"
  | .UNKNOWN => "UNKNOWN"

/-- The label strings `GestureMapper` compares against: the values of its own
`GESTURES` dictionary (`src/gestures/gesture_mapper.py`), all lowercase —
note they differ from the tracker's uppercase strings. -/
def mapperLabel : GestureLabel → String
  | .NO_HAND => "no_hand"
  | .OPEN_PALM => "open_palm"
  | .FIST => "fist"
  | .POINT => "point"
  | .PINCH => "pinch"
  | .UNKNOWN => "unknown"

/-- `GestureMapper`'s mutable fields at the string level, as the source holds
them: `prev_gesture` is a Python string (initially `"no_hand"`). -/
structure MapperStrState where
  prev_gesture : String
  last_action_time : ℚ
  cooldown : ℚ
deriving DecidableEq, Repr

/-- Result of one string-level call to `GestureMapper.handle`. -/
structure HandleStrResult where
  mapper : MapperStrState
  actions : ActionsState
  events : List ActionEvent
deriving DecidableEq, Repr

/-- `GestureMapper._execute_action` at the string level:
`action_map = {"fist": ..., "point": ..., "pinch": ...}`;
`action_map.get` returns `None` for every other string. -/
def execute_action_str (g : String) (a : ActionsState) :
    ActionsState × List ActionEvent :=
  if g = mapperLabel .FIST then
    ({ a with last_action := some "play_pause" }, [.play_pause])
  else if g = mapperLabel .POINT then
    ({ a with last_action := some "next_desktop" }, [.next_desktop])
  else if g = mapperLabel .PINCH then
    ({ a with last_action := some "volume_up" }, [.volume_up])
  else (a, [])

/-- `GestureMapper.handle` at the string level, with the comparisons the
source performs: `gesture == self.GESTURES["OPEN_PALM"]` compares the
incoming string with the mapper's lowercase `"open_palm"`. -/
def GestureMapper.handleStr (g : String) (now : ℚ) (m : MapperStrState)
    (a : ActionsState) : HandleStrResult :=
  if now - m.last_action_time < m.cooldown then
    { mapper := { m with prev_gesture := g }, actions := a, events := [] }
  else if g ≠ m.prev_gesture then
    let m1 := { m with last_action_time := now }
    if g = mapperLabel .OPEN_PALM then
      { mapper := { m1 with prev_gesture := g },
        actions := a.toggle_control, events := [.toggled] }
    else if a.control_enabled then
      { mapper := { m1 with prev_gesture := g },
        actions := (execute_action_str g a).1,
        events := (execute_action_str g a).2 }
    else
      { mapper := { m1 with prev_gesture := g }, actions := a, events := [] }
  else
    { mapper := { m with prev_gesture := g }, actions := a, events := [] }

/-- The per-frame state of the whole program in the main loop of
`src/main.py`: the gesture mapper (string level), the desktop actions, and
the security state. -/
structure TutorWorld where
  mapper : MapperStrState
  actions : ActionsState
  security : SecurityState
deriving DecidableEq, Repr

/-- Result of one iteration of the main loop's processing. -/
structure FrameResult where
  world : TutorWorld
  events : List ActionEvent
  locked : Bool
deriving DecidableEq, Repr

/-- One iteration of the main loop of `src/main.py`:
`mapper.handle(gesture)` — where `gesture` is the tracker's stable label,
one of the uppercase `trackerLabel` strings, passed through unmodified —
followed by `handle_security_warnings(frame, identity, face_absent,
security_state)`. -/
def frameStep (stable : GestureLabel) (ident : IdentityLabel)
    (face_absent : Bool) (now : ℚ) (w : TutorWorld) : FrameResult :=
  let r := GestureMapper.handleStr (trackerLabel stable) now w.mapper w.actions
  let s := handle_security_warnings ident face_absent now w.security
  { world := { mapper := r.mapper, actions := r.actions, security := s.state },
    events := r.events, locked := s.locked }

/-- One step of Python's `max(set(buffer), key=buffer.count)`: keep the
current best, replacing it only when the challenger's count is strictly
greater (so the first maximal element of the iteration order wins). -/
def pyMaxStep (buf : List GestureLabel) (best : Option GestureLabel)
    (g : GestureLabel) : Option GestureLabel :=
  match best with
  | none => some g
  | some b => if buf.count b < buf.count g then some g else some b

/-- `max(set(self.gesture_buffer), key=self.gesture_buffer.count)` from
`HandTracker._stable_gesture`, parameterised by `order`, the iteration order
of the Python set — CPython iterates a set in hash-table order, which is
unspecified (and hash-randomised for strings), so the order is an input of
the model rather than a function of the buffer. -/
def pyMaxByCount (buf order : List GestureLabel) : Option GestureLabel :=
  order.foldl (pyMaxStep buf) none

/-- `order` is an admissible iteration order of `set(buf)`: no duplicates and
exactly the elements of `buf`. -/
def validSetOrder (buf order : List GestureLabel) : Prop :=
  order.Nodup ∧ ∀ g, g ∈ order ↔ g ∈ buf

/-- The gesture-stability fields of `HandTracker`
(`src/vision/hand_tracker.py`): the ring buffer (most recent label last,
capacity `hold_frames = 8`), the last emitted stable label, the time of the
last emission, and the tracker's cooldown (0.6 s by default). -/
structure HandTrackerState where
  gesture_buffer : List GestureLabel
  last_stable_gesture : GestureLabel
  last_emit_time : ℚ
  cooldown : ℚ
deriving DecidableEq, Repr

/-- `HandTracker.__init__` with the default parameters. -/
def HandTrackerState.init : HandTrackerState :=
  { gesture_buffer := [], last_stable_gesture := .NO_HAND,
    last_emit_time := 0, cooldown := 3/5 }

/-- `HandTracker._update_buffer`: append to the `deque(maxlen=8)`, evicting
the oldest entry when full. -/
def HandTrackerState.update_buffer (g : GestureLabel)
    (st : HandTrackerState) : HandTrackerState :=
  let b := st.gesture_buffer ++ [g]
  { st with gesture_buffer := if 8 < b.length then b.tail else b }

/-- `HandTracker._stable_gesture`: majority vote over the buffer (via
`pyMaxByCount` with the given set-iteration order) and cooldown-gated
emission; returns the updated state and the emitted label. -/
def HandTrackerState.stable_gesture (now : ℚ) (order : List GestureLabel)
    (st : HandTrackerState) : HandTrackerState × GestureLabel :=
  if st.gesture_buffer.length = 0 then (st, st.last_stable_gesture)
  else
    match pyMaxByCount st.gesture_buffer order with
    | none => (st, st.last_stable_gesture)
    | some mc =>
        if mc ≠ st.last_stable_gesture ∧ st.cooldown < now - st.last_emit_time then
          ({ st with last_stable_gesture := mc, last_emit_time := now }, mc)
        else (st, st.last_stable_gesture)

/-- `HandTracker.process` restricted to the stability system: push the raw
label classified for this frame, then compute the stable gesture. -/
def HandTrackerState.process (g : GestureLabel) (now : ℚ)
    (order : List GestureLabel) (st : HandTrackerState) :
    HandTrackerState × GestureLabel :=
  (st.update_buffer g).stable_gesture now order

/-- One frame's input to the stabilizer: the raw label, the wall-clock
reading, and the set-iteration order CPython happens to use that frame. -/
structure StabInput where
  label : GestureLabel
  now : ℚ
  order : List GestureLabel
deriving DecidableEq, Repr

/-- Run the stabilizer over a sequence of frames. -/
def runStab (st : HandTrackerState) (inputs : List StabInput) :
    HandTrackerState :=
  inputs.foldl (fun s i => (s.process i.label i.now i.order).1) st

/-- The stabilizer state after the first `k` frames. -/
def stateAt (st : HandTrackerState) (inputs : List StabInput) (k : ℕ) :
    HandTrackerState :=
  runStab st (inputs.take k)

/-- The emitted stable label changes at frame `k`. -/
def changeAt (st : HandTrackerState) (inputs : List StabInput) (k : ℕ) :
    Prop :=
  (stateAt st inputs (k + 1)).last_stable_gesture
    ≠ (stateAt st inputs k).last_stable_gesture

instance (st : HandTrackerState) (inputs : List StabInput) (k : ℕ) :
    Decidable (changeAt st inputs k) := by
  unfold changeAt
  infer_instance

/-- Concrete stabilizer start state used in the C8 witness. -/
def c8_state : HandTrackerState := ⟨[], .NO_HAND, 0, 1/2⟩

/-- Concrete two-frame input trace used in the C8 witness. -/
def c8_inputs : List StabInput :=
  [⟨.FIST, 1, [.FIST]⟩, ⟨.OPEN_PALM, 2, [.OPEN_PALM, .FIST]⟩]

/-- Claim C1 (amended): `lock_triggered` is not monotonic.  Whenever the
security-handling step is entered with `lock_triggered = true`, every branch
guard fails and the step unconditionally resets the state, returning
`lock_triggered` to `false` and clearing the timer; no lock is invoked. -/
theorem C1_amended (ident : IdentityLabel) (face_absent : Bool) (now : ℚ)
    (st : SecurityState) (h : st.lock_triggered = true) :
    handle_security_warnings ident face_absent now st
      = ⟨SecurityState.reset, false, none⟩ := by
  simp [handle_security_warnings, h]

/-- Witness for C1_amended at a concrete locked state. -/
theorem C1_witness :
    (SecurityState.mk none true 5).lock_triggered = true ∧
    handle_security_warnings .AUTHORIZED false 0 ⟨none, true, 5⟩
      = ⟨SecurityState.reset, false, none⟩ :=
  ⟨rfl, C1_amended .AUTHORIZED false 0 ⟨none, true, 5⟩ rfl⟩

/-- Claim C1 (counterexample): starting from the initial state, one
face-absent pass at `t = 0` sets `lock_triggered = true`, and the very next
pass (still face-absent, identity authorized, `t = 1/10`) sets it back to
`false` — so `lock_triggered` does not remain true for the rest of the
session. -/
theorem C1_counterexample :
    (handle_security_warnings .AUTHORIZED true 0 SecurityState.init).state.lock_triggered
        = true ∧
    (handle_security_warnings .AUTHORIZED true (1/10)
        (handle_security_warnings .AUTHORIZED true 0 SecurityState.init).state).state.lock_triggered
        = false := by
  with_unfolding_all decide

/-- Claim C2 (amended): in the `identity = UNKNOWN`, `lock_triggered = false`
branch the step never leaves `lock_triggered` set, never starts a countdown of
its own, and invokes the lock only when a previously recorded blur timer shows
at least `BLUR_DURATION` elapsed; with the timer unset the state is returned
unchanged, the blur applied is the current `blur_strength`, and no lock
occurs. -/
theorem C2_amended (face_absent : Bool) (now : ℚ) (st : SecurityState)
    (h : st.lock_triggered = false) :
    (handle_security_warnings .UNKNOWN face_absent now st).state.lock_triggered = false ∧
    ((handle_security_warnings .UNKNOWN face_absent now st).locked = true ↔
      ∃ t0, st.blur_start_time = some t0 ∧ BLUR_DURATION ≤ now - t0) ∧
    (st.blur_start_time = none →
      handle_security_warnings .UNKNOWN face_absent now st
        = ⟨st, false, some st.blur_strength⟩) := by
  rcases hb : st.blur_start_time with _ | t0
  · simp [handle_security_warnings, SecurityState.update_blur_progress,
      SecurityState.should_lock, hb, h]
  · simp only [handle_security_warnings, SecurityState.update_blur_progress,
      SecurityState.should_lock, hb, h, and_true, if_true, reduceCtorEq,
      false_implies, and_self, true_and]
    split
    · rename_i hlock
      simp only [decide_eq_true_eq] at hlock
      simp [SecurityState.reset, hlock]
    · rename_i hlock
      simp only [decide_eq_true_eq] at hlock
      simp [h, hlock]

/-- Witness for C2_amended at the initial (timer-unset) state. -/
theorem C2_witness :
    (handle_security_warnings .UNKNOWN false 0 SecurityState.init).state.lock_triggered = false ∧
    ((handle_security_warnings .UNKNOWN false 0 SecurityState.init).locked = true ↔
      ∃ t0, SecurityState.init.blur_start_time = some t0 ∧ BLUR_DURATION ≤ 0 - t0) ∧
    (SecurityState.init.blur_start_time = none →
      handle_security_warnings .UNKNOWN false 0 SecurityState.init
        = ⟨SecurityState.init, false, some SecurityState.init.blur_strength⟩) :=
  C2_amended false 0 SecurityState.init rfl

/-- Claim C2 (counterexample): with identity `UNKNOWN` and
`lock_triggered = false` in the initial state, the pass applies blur strength 5
(not the maximum 45–50), does not invoke the lock, and leaves
`lock_triggered = false` — no immediate transition to `LOCKED` occurs. -/
theorem C2_counterexample :
    handle_security_warnings .UNKNOWN false 0 SecurityState.init
      = ⟨SecurityState.init, false, some 5⟩ ∧ (5 : ℤ) < 45 := by
  with_unfolding_all decide

/-- Claim C3 (code bug evaluation): three consecutive face-absent passes at
`t = 0`, `t = 8/5` and `t = 16/5` (identity authorized, starting from the
initial state).  The first pass re-arms the timer and sets
`lock_triggered = true` without locking; the second pass, entered with
`lock_triggered = true`, unconditionally resets the state (clearing the
timer); the third re-arms again.  Although the face is absent continuously
for 3.2 s, `lock_screen` is never invoked — the countdown can never
elapse. -/
theorem C3_code_eval :
    handle_security_warnings .AUTHORIZED true 0 SecurityState.init
      = ⟨⟨some 0, true, 5⟩, false, none⟩ ∧
    handle_security_warnings .AUTHORIZED true (8/5) ⟨some 0, true, 5⟩
      = ⟨SecurityState.reset, false, none⟩ ∧
    handle_security_warnings .AUTHORIZED true (16/5) SecurityState.reset
      = ⟨⟨some (16/5), true, 5⟩, false, none⟩ := by
  with_unfolding_all decide

/-- Claim C9: during an absence countdown (timer set to `t0`), the strength
computed by `update_blur_progress` equals `blurFormula (now - t0)`;
`blurFormula` is monotone non-decreasing on nonnegative elapsed times, never
exceeds 50, and equals 50 from `BLUR_DURATION = 3/2` seconds onward. -/
theorem C9_blur :
    (∀ (st : SecurityState) (t0 now : ℚ), st.blur_start_time = some t0 →
        (st.update_blur_progress now).1 = blurFormula (now - t0) ∧
        (st.update_blur_progress now).2.blur_strength = blurFormula (now - t0)) ∧
    (∀ e1 e2 : ℚ, 0 ≤ e1 → e1 ≤ e2 → blurFormula e1 ≤ blurFormula e2) ∧
    (∀ e : ℚ, blurFormula e ≤ 50) ∧
    (∀ e : ℚ, BLUR_DURATION ≤ e → blurFormula e = 50) := by
  have hD : (0 : ℚ) < BLUR_DURATION := by norm_num [BLUR_DURATION]
  refine ⟨?_, ?_, ?_, ?_⟩
  · intro st t0 now h
    simp [SecurityState.update_blur_progress, h, blurFormula]
  · intro e1 e2 h1 h12
    have hm : min (e1 / BLUR_DURATION) 1 ≤ min (e2 / BLUR_DURATION) 1 :=
      min_le_min ((div_le_div_iff_of_pos_right hD).mpr h12) le_rfl
    have hq : (5 : ℚ) + min (e1 / BLUR_DURATION) 1 * 45
        ≤ 5 + min (e2 / BLUR_DURATION) 1 * 45 := by
      have := mul_le_mul_of_nonneg_right hm (by norm_num : (0:ℚ) ≤ 45)
      linarith
    have hpos1 : (0 : ℚ) ≤ 5 + min (e1 / BLUR_DURATION) 1 * 45 := by
      have hmin : (0 : ℚ) ≤ min (e1 / BLUR_DURATION) 1 :=
        le_min (div_nonneg h1 hD.le) (by norm_num)
      nlinarith
    have hpos2 : (0 : ℚ) ≤ 5 + min (e2 / BLUR_DURATION) 1 * 45 :=
      le_trans hpos1 hq
    simp only [blurFormula, pyInt, if_pos hpos1, if_pos hpos2]
    exact Int.floor_le_floor hq
  · intro e
    have hq : (5 : ℚ) + min (e / BLUR_DURATION) 1 * 45 ≤ 50 := by
      have := mul_le_mul_of_nonneg_right
        (min_le_right (e / BLUR_DURATION) 1) (by norm_num : (0:ℚ) ≤ 45)
      linarith
    by_cases hpos : (0 : ℚ) ≤ 5 + min (e / BLUR_DURATION) 1 * 45
    · simp only [blurFormula, pyInt, if_pos hpos]
      have : ⌊(5 : ℚ) + min (e / BLUR_DURATION) 1 * 45⌋ ≤ ⌊(50 : ℚ)⌋ :=
        Int.floor_le_floor hq
      simpa using this
    · simp only [blurFormula, pyInt, if_neg hpos]
      exact Int.ceil_le.mpr (by exact_mod_cast hq)
  · intro e he
    have h1 : (1 : ℚ) ≤ e / BLUR_DURATION := (one_le_div hD).mpr he
    have : min (e / BLUR_DURATION) 1 = 1 := min_eq_right h1
    simp only [blurFormula, this, one_mul, pyInt]
    norm_num

/-- Witness for C9_blur at concrete inputs. -/
theorem C9_witness :
    ((SecurityState.mk (some 0) false 5).update_blur_progress 3).1 = blurFormula (3 - 0) ∧
    blurFormula 0 ≤ blurFormula 1 ∧
    blurFormula 2 ≤ 50 ∧
    blurFormula 2 = 50 :=
  ⟨(C9_blur.1 ⟨some 0, false, 5⟩ 0 3 rfl).1,
   C9_blur.2.1 0 1 (by norm_num) (by norm_num),
   C9_blur.2.2.1 2,
   C9_blur.2.2.2 2 (by norm_num [BLUR_DURATION])⟩

/-- A string-level call to the mapper whose label matches none of the
mapper's own constants dispatches nothing and leaves the actions state
untouched, whatever the cooldown state, the previous label and the enable
flag. -/
theorem handleStr_no_match (g : String) (now : ℚ) (m : MapperStrState)
    (a : ActionsState)
    (hpalm : ¬ g = mapperLabel .OPEN_PALM) (hfist : ¬ g = mapperLabel .FIST)
    (hpoint : ¬ g = mapperLabel .POINT) (hpinch : ¬ g = mapperLabel .PINCH) :
    (GestureMapper.handleStr g now m a).events = [] ∧
    (GestureMapper.handleStr g now m a).actions = a := by
  unfold GestureMapper.handleStr execute_action_str
  split_ifs <;> simp_all

/-- Claim C4: in the composed main loop, a frame processed while the shared
lock flag is true (`security.lock_triggered = true`) dispatches no action and
does not toggle the enable flag, regardless of the stable label, the
dispatcher's cooldown state, or the enable flag.  The property holds, but
degenerately: the mapper never consults the lock flag — dispatch is
suppressed because the tracker's uppercase label strings never equal the
mapper's lowercase `GESTURES` constants, so no call in the composed loop can
dispatch anything at all. -/
theorem C4_no_dispatch (stable : GestureLabel) (ident : IdentityLabel)
    (face_absent : Bool) (now : ℚ) (w : TutorWorld)
    (_hlock : w.security.lock_triggered = true) :
    (frameStep stable ident face_absent now w).events = [] ∧
    (frameStep stable ident face_absent now w).world.actions = w.actions := by
  have h := handleStr_no_match (trackerLabel stable) now w.mapper w.actions
    (by cases stable <;> decide) (by cases stable <;> decide)
    (by cases stable <;> decide) (by cases stable <;> decide)
  exact ⟨h.1, h.2⟩

/-- Witness for C4_no_dispatch on the instance the spec expects to toggle: a
stable `OPEN_PALM` label with the cooldown long elapsed, while locked —
nothing is dispatched and the actions state is unchanged. -/
theorem C4_witness :
    (TutorWorld.mk ⟨"no_hand", 0, 4/5⟩ ⟨false, none⟩ ⟨none, true, 5⟩).security.lock_triggered
        = true ∧
    (frameStep .OPEN_PALM .AUTHORIZED false 10
        ⟨⟨"no_hand", 0, 4/5⟩, ⟨false, none⟩, ⟨none, true, 5⟩⟩).events = [] ∧
    (frameStep .OPEN_PALM .AUTHORIZED false 10
        ⟨⟨"no_hand", 0, 4/5⟩, ⟨false, none⟩, ⟨none, true, 5⟩⟩).world.actions
        = ⟨false, none⟩ :=
  ⟨rfl,
    (C4_no_dispatch .OPEN_PALM .AUTHORIZED false 10
      ⟨⟨"no_hand", 0, 4/5⟩, ⟨false, none⟩, ⟨none, true, 5⟩⟩ rfl).1,
    (C4_no_dispatch .OPEN_PALM .AUTHORIZED false 10
      ⟨⟨"no_hand", 0, 4/5⟩, ⟨false, none⟩, ⟨none, true, 5⟩⟩ rfl).2⟩

/-- Claim C5 (amended): a call to `handle` dispatches something (an action or
the control toggle) iff the label differs from the previously-seen one, the
dispatcher's cooldown has elapsed, and either the label is `OPEN_PALM` or
control is enabled and the label is one of the three mapped actions
(`FIST`, `POINT`, `PINCH`); labels outside the action map dispatch nothing
even when control is enabled. -/
theorem C5_amended (g : GestureLabel) (now : ℚ) (m : MapperState)
    (a : ActionsState) :
    (GestureMapper.handle g now m a).events ≠ [] ↔
      (g ≠ m.prev_gesture ∧ ¬ (now - m.last_action_time < m.cooldown) ∧
        (g = .OPEN_PALM ∨
          (a.control_enabled = true ∧ (g = .FIST ∨ g = .POINT ∨ g = .PINCH)))) := by
  by_cases h1 : now - m.last_action_time < m.cooldown
  · simp [GestureMapper.handle, h1]
  · by_cases h2 : g = m.prev_gesture
    · simp [GestureMapper.handle, h1, h2]
    · by_cases h3 : g = .OPEN_PALM
      · subst h3
        simp [GestureMapper.handle, h1, h2]
      · by_cases h4 : a.control_enabled = true
        · cases g <;>
            first
              | exact absurd rfl h3
              | simp [GestureMapper.handle, execute_action, h1, h2, h4]
        · simp [GestureMapper.handle, h1, h2, h3, h4]

/-- Claim C5 (counterexample): the claimed trigger condition holds — the label
`UNKNOWN` differs from the previous label `FIST`, the cooldown has elapsed and
gesture control is enabled — yet the call dispatches nothing, because
`UNKNOWN` has no entry in the action map. -/
theorem C5_counterexample :
    ((GestureLabel.UNKNOWN ≠ (MapperState.mk .FIST 0 (4/5)).prev_gesture) ∧
      ¬ ((10 : ℚ) - (MapperState.mk .FIST 0 (4/5)).last_action_time
          < (MapperState.mk .FIST 0 (4/5)).cooldown) ∧
      (ActionsState.mk true none).control_enabled = true) ∧
    (GestureMapper.handle .UNKNOWN 10 ⟨.FIST, 0, 4/5⟩ ⟨true, none⟩).events = [] := by
  with_unfolding_all decide

/-- Claim C6: on a qualifying edge (cooldown elapsed, previous label not
`OPEN_PALM`) whose new label is `OPEN_PALM`, `handle` flips
`control_enabled` exactly once — whatever its current value — emits only the
toggle event, and leaves `last_action` untouched. -/
theorem C6_open_palm (now : ℚ) (m : MapperState) (a : ActionsState)
    (hcool : ¬ (now - m.last_action_time < m.cooldown))
    (hedge : m.prev_gesture ≠ .OPEN_PALM) :
    GestureMapper.handle .OPEN_PALM now m a
      = ⟨⟨.OPEN_PALM, now, m.cooldown⟩, ⟨!a.control_enabled, a.last_action⟩,
          [.toggled]⟩ := by
  simp [GestureMapper.handle, hcool, Ne.symm hedge, ActionsState.toggle_control]

/-- Witness for C6_open_palm on a disabled state, concrete inputs. -/
theorem C6_witness :
    GestureMapper.handle .OPEN_PALM 10 ⟨.NO_HAND, 0, 1⟩ ⟨false, none⟩
      = ⟨⟨.OPEN_PALM, 10, 1⟩, ⟨true, none⟩, [.toggled]⟩ :=
  C6_open_palm 10 ⟨.NO_HAND, 0, 1⟩ ⟨false, none⟩ (by norm_num) (by decide)

/-- Claim C10: a call made while the dispatcher's cooldown has not elapsed
still overwrites the previously-seen label with the incoming one and
dispatches nothing; consequently, from any state whose previous label already
equals the stable label `g`, every later call with `g` — at any times, even
after the cooldown expires — leaves the mapper and actions unchanged and
dispatches nothing. -/
theorem C10_cooldown_overwrite :
    (∀ (g : GestureLabel) (now : ℚ) (m : MapperState) (a : ActionsState),
        now - m.last_action_time < m.cooldown →
        GestureMapper.handle g now m a
          = ⟨{ m with prev_gesture := g }, a, []⟩) ∧
    (∀ (g : GestureLabel) (m : MapperState) (a : ActionsState) (times : List ℚ),
        m.prev_gesture = g →
        handleRun g times m a = ⟨m, a, []⟩) := by
  constructor
  · intro g now m a h
    simp [GestureMapper.handle, h]
  · intro g m a times h
    have steady : ∀ now : ℚ, GestureMapper.handle g now m a = ⟨m, a, []⟩ := by
      intro now
      have hm : ({ m with prev_gesture := g } : MapperState) = m := by
        cases m
        simp_all
      by_cases hc : now - m.last_action_time < m.cooldown
      · simp [GestureMapper.handle, hc, hm]
      · simp [GestureMapper.handle, hc, h, hm]
    induction times with
    | nil => simp [handleRun]
    | cons t ts ih =>
        simp only [handleRun, List.foldl_cons] at ih ⊢
        simpa [steady t] using ih

/-- Witness for C10_cooldown_overwrite: a within-cooldown call overwrites the
previous label, and two later calls with a constant label dispatch nothing. -/
theorem C10_witness :
    ((0 : ℚ) - 0 < 1) ∧
    GestureMapper.handle .FIST 0 ⟨.NO_HAND, 0, 1⟩ ⟨true, none⟩
      = ⟨⟨.FIST, 0, 1⟩, ⟨true, none⟩, []⟩ ∧
    handleRun .FIST [10, 20] ⟨.FIST, 0, 1⟩ ⟨true, none⟩
      = ⟨⟨.FIST, 0, 1⟩, ⟨true, none⟩, []⟩ :=
  ⟨by norm_num,
   C10_cooldown_overwrite.1 .FIST 0 ⟨.NO_HAND, 0, 1⟩ ⟨true, none⟩ (by norm_num),
   C10_cooldown_overwrite.2 .FIST ⟨.FIST, 0, 1⟩ ⟨true, none⟩ [10, 20] rfl⟩

/-- Folding `pyMaxStep` from a seeded best yields an element that is the seed
or comes from the list, and whose count dominates both the seed's and every
listed element's count. -/
theorem pyMaxStep_fold_spec (buf : List GestureLabel) :
    ∀ (order : List GestureLabel) (b : GestureLabel),
      ∃ c, order.foldl (pyMaxStep buf) (some b) = some c ∧
        (c = b ∨ c ∈ order) ∧ buf.count b ≤ buf.count c ∧
        ∀ g ∈ order, buf.count g ≤ buf.count c := by
  intro order
  induction order with
  | nil =>
      intro b
      exact ⟨b, rfl, Or.inl rfl, le_rfl, by simp⟩
  | cons x xs ih =>
      intro b
      by_cases hbx : buf.count b < buf.count x
      · obtain ⟨c, hc, hmem, hge, hall⟩ := ih x
        refine ⟨c, ?_, ?_, le_trans hbx.le hge, ?_⟩
        · simpa [pyMaxStep, hbx] using hc
        · rcases hmem with rfl | h
          · exact Or.inr (List.mem_cons_self c xs)
          · exact Or.inr (List.mem_cons_of_mem x h)
        · intro g hg
          rcases List.mem_cons.mp hg with rfl | h
          · exact hge
          · exact hall g h
      · obtain ⟨c, hc, hmem, hge, hall⟩ := ih b
        refine ⟨c, ?_, ?_, hge, ?_⟩
        · simpa [pyMaxStep, hbx] using hc
        · rcases hmem with rfl | h
          · exact Or.inl rfl
          · exact Or.inr (List.mem_cons_of_mem x h)
        · intro g hg
          rcases List.mem_cons.mp hg with rfl | h
          · exact le_trans (not_lt.mp hbx) hge
          · exact hall g h

/-- Claim C7 (amended): for every non-empty buffer and every admissible
set-iteration order, the candidate `pyMaxByCount` computes is a buffer label
with the highest occurrence count; ties among maximal labels are broken by
the (unspecified, hash-dependent) iteration order — the first maximal label
of the enumeration wins — not by recency of appending. -/
theorem C7_amended (buf order : List GestureLabel)
    (hvalid : validSetOrder buf order) (hne : buf ≠ []) :
    ∃ c, pyMaxByCount buf order = some c ∧ c ∈ buf ∧
      ∀ g ∈ buf, buf.count g ≤ buf.count c := by
  obtain ⟨a, ha⟩ := List.exists_mem_of_ne_nil buf hne
  have haord : a ∈ order := (hvalid.2 a).mpr ha
  obtain ⟨x, xs, rfl⟩ : ∃ x xs, order = x :: xs := by
    cases order with
    | nil => simp at haord
    | cons x xs => exact ⟨x, xs, rfl⟩
  obtain ⟨c, hc, hmem, hge, hall⟩ := pyMaxStep_fold_spec buf xs x
  refine ⟨c, ?_, ?_, ?_⟩
  · simpa [pyMaxByCount, pyMaxStep] using hc
  · apply (hvalid.2 c).mp
    rcases hmem with rfl | h
    · exact List.mem_cons_self c xs
    · exact List.mem_cons_of_mem x h
  · intro g hg
    rcases List.mem_cons.mp ((hvalid.2 g).mpr hg) with rfl | h
    · exact hge
    · exact hall g h

/-- Witness for C7_amended on a concrete tied buffer and admissible order. -/
theorem C7_witness :
    validSetOrder [.FIST, .OPEN_PALM] [.OPEN_PALM, .FIST] ∧
    ∃ c, pyMaxByCount [.FIST, .OPEN_PALM] [.OPEN_PALM, .FIST] = some c ∧
      c ∈ [GestureLabel.FIST, .OPEN_PALM] ∧
      ∀ g ∈ [GestureLabel.FIST, .OPEN_PALM],
        [GestureLabel.FIST, .OPEN_PALM].count g
          ≤ [GestureLabel.FIST, .OPEN_PALM].count c := by
  have hv : validSetOrder [.FIST, .OPEN_PALM] [.OPEN_PALM, .FIST] :=
    ⟨by decide, by decide⟩
  exact ⟨hv, C7_amended [.FIST, .OPEN_PALM] [.OPEN_PALM, .FIST] hv (by decide)⟩

/-- Claim C7 (counterexample): buffer `[FIST, OPEN_PALM]` (so `OPEN_PALM` is
the most recently appended) with both labels tied at count 1.  Under the
admissible set-iteration order `[FIST, OPEN_PALM]` the code's
`max(set(...), key=count)` yields `FIST`, not the most recently appended tied
label `OPEN_PALM` — the tie-break claimed by the spec is not what the code
guarantees. -/
theorem C7_counterexample :
    validSetOrder [.FIST, .OPEN_PALM] [.FIST, .OPEN_PALM] ∧
    pyMaxByCount [.FIST, .OPEN_PALM] [.FIST, .OPEN_PALM] = some .FIST ∧
    [GestureLabel.FIST, .OPEN_PALM].count .FIST
      = [GestureLabel.FIST, .OPEN_PALM].count .OPEN_PALM ∧
    [GestureLabel.FIST, .OPEN_PALM].getLast? = some .OPEN_PALM ∧
    GestureLabel.FIST ≠ .OPEN_PALM :=
  ⟨⟨by decide, by decide⟩, by decide, by decide, by decide, by decide⟩

/-- `update_buffer` touches only the buffer. -/
theorem update_buffer_fields (g : GestureLabel) (st : HandTrackerState) :
    (st.update_buffer g).last_stable_gesture = st.last_stable_gesture ∧
    (st.update_buffer g).last_emit_time = st.last_emit_time ∧
    (st.update_buffer g).cooldown = st.cooldown := by
  simp [HandTrackerState.update_buffer]

/-- Field behaviour of `_stable_gesture`: the cooldown is never modified; a
change of the emitted label stamps `last_emit_time := now` and can only
happen when strictly more than `cooldown` has elapsed since the last
emission; when the label does not change, `last_emit_time` is preserved. -/
theorem stable_gesture_spec (now : ℚ) (order : List GestureLabel)
    (st : HandTrackerState) :
    ((st.stable_gesture now order).1.cooldown = st.cooldown) ∧
    ((st.stable_gesture now order).1.last_stable_gesture ≠ st.last_stable_gesture →
        (st.stable_gesture now order).1.last_emit_time = now ∧
        st.cooldown < now - st.last_emit_time) ∧
    ((st.stable_gesture now order).1.last_stable_gesture = st.last_stable_gesture →
        (st.stable_gesture now order).1.last_emit_time = st.last_emit_time) := by
  unfold HandTrackerState.stable_gesture
  split
  · exact ⟨rfl, fun h => absurd rfl h, fun _ => rfl⟩
  · split
    · exact ⟨rfl, fun h => absurd rfl h, fun _ => rfl⟩
    · split
      · rename_i hguard
        exact ⟨rfl, fun _ => ⟨rfl, hguard.2⟩, fun h => absurd h hguard.1⟩
      · exact ⟨rfl, fun h => absurd rfl h, fun _ => rfl⟩

/-- The same field behaviour lifted to one full `process` step. -/
theorem process_spec (g : GestureLabel) (now : ℚ) (order : List GestureLabel)
    (st : HandTrackerState) :
    ((st.process g now order).1.cooldown = st.cooldown) ∧
    ((st.process g now order).1.last_stable_gesture ≠ st.last_stable_gesture →
        (st.process g now order).1.last_emit_time = now ∧
        st.cooldown < now - st.last_emit_time) ∧
    ((st.process g now order).1.last_stable_gesture = st.last_stable_gesture →
        (st.process g now order).1.last_emit_time = st.last_emit_time) := by
  have hb := update_buffer_fields g st
  have hs := stable_gesture_spec now order (st.update_buffer g)
  unfold HandTrackerState.process
  refine ⟨hs.1.trans hb.2.2, ?_, ?_⟩
  · intro h
    have h2 := hs.2.1 (by rw [hb.1]; exact h)
    refine ⟨h2.1, ?_⟩
    rw [hb.2.2, hb.2.1] at h2
    exact h2.2
  · intro h
    have h2 := hs.2.2 (by rw [hb.1]; exact h)
    rw [hb.2.1] at h2
    exact h2

/-- Running the stabilizer never changes the cooldown. -/
theorem runStab_cooldown (inputs : List StabInput) :
    ∀ st : HandTrackerState, (runStab st inputs).cooldown = st.cooldown := by
  induction inputs with
  | nil => intro st; rfl
  | cons x xs ih =>
      intro st
      calc (runStab st (x :: xs)).cooldown
          = (runStab ((st.process x.label x.now x.order).1) xs).cooldown := rfl
        _ = ((st.process x.label x.now x.order).1).cooldown := ih _
        _ = st.cooldown := (process_spec x.label x.now x.order st).1

/-- Unrolling `stateAt` one frame at a time. -/
theorem stateAt_succ (st : HandTrackerState) (inputs : List StabInput)
    (k : ℕ) (hk : k < inputs.length) :
    stateAt st inputs (k + 1)
      = ((stateAt st inputs k).process (inputs.get ⟨k, hk⟩).label
          (inputs.get ⟨k, hk⟩).now (inputs.get ⟨k, hk⟩).order).1 := by
  unfold stateAt runStab
  rw [List.take_succ, List.foldl_append, List.getElem?_eq_getElem hk]
  rfl

/-- Claim C8: for every start state, every sequence of raw labels with
arbitrary timestamps and arbitrary set-iteration orders, and every pair of
consecutive changes of the emitted stable label (frames `i < j` with no
change strictly between), strictly more than the stabilizer's cooldown
elapses between the two change frames — the emitted label changes at most
once per cooldown window. -/
theorem C8_stabilizer_cooldown (st : HandTrackerState)
    (inputs : List StabInput) (i j : ℕ) (hij : i < j) (hj : j < inputs.length)
    (hci : changeAt st inputs i) (hcj : changeAt st inputs j)
    (hmid : ∀ k, i < k → k < j → ¬ changeAt st inputs k) :
    st.cooldown
      < (inputs.get ⟨j, hj⟩).now - (inputs.get ⟨i, lt_trans hij hj⟩).now := by
  have hi : i < inputs.length := lt_trans hij hj
  have emit_inv : ∀ m, i < m → m ≤ j →
      (stateAt st inputs m).last_emit_time = (inputs.get ⟨i, hi⟩).now := by
    intro m
    induction m with
    | zero => omega
    | succ n ihn =>
        intro h1 h2
        have hn : n < inputs.length := by omega
        rcases Nat.lt_or_ge i n with hin | hin
        · have hnc : ¬ changeAt st inputs n := hmid n hin (by omega)
          have heq : (stateAt st inputs (n + 1)).last_stable_gesture
              = (stateAt st inputs n).last_stable_gesture := not_not.mp hnc
          rw [stateAt_succ st inputs n hn] at heq ⊢
          rw [(process_spec _ _ _ _).2.2 heq]
          exact ihn hin (by omega)
        · have hni : n = i := by omega
          subst hni
          have hne : (stateAt st inputs (n + 1)).last_stable_gesture
              ≠ (stateAt st inputs n).last_stable_gesture := hci
          rw [stateAt_succ st inputs n hn] at hne ⊢
          exact ((process_spec _ _ _ _).2.1 hne).1
  have hemitj : (stateAt st inputs j).last_emit_time
      = (inputs.get ⟨i, hi⟩).now := emit_inv j hij le_rfl
  have hcoolj : (stateAt st inputs j).cooldown = st.cooldown :=
    runStab_cooldown _ _
  have hcj' : (stateAt st inputs (j + 1)).last_stable_gesture
      ≠ (stateAt st inputs j).last_stable_gesture := hcj
  rw [stateAt_succ st inputs j hj] at hcj'
  have hstep := (process_spec (inputs.get ⟨j, hj⟩).label
    (inputs.get ⟨j, hj⟩).now (inputs.get ⟨j, hj⟩).order
    (stateAt st inputs j)).2.1 hcj'
  rw [hcoolj, hemitj] at hstep
  exact hstep.2

/-- Witness for C8_stabilizer_cooldown: a concrete two-frame trace with
cooldown `1/2` whose emitted label changes at frames 0 (time 1) and
1 (time 2). -/
theorem C8_witness :
    changeAt c8_state c8_inputs 0 ∧ changeAt c8_state c8_inputs 1 ∧
    c8_state.cooldown
      < (c8_inputs.get ⟨1, by decide⟩).now - (c8_inputs.get ⟨0, by decide⟩).now := by
  have h0 : changeAt c8_state c8_inputs 0 := by with_unfolding_all decide
  have h1 : changeAt c8_state c8_inputs 1 := by with_unfolding_all decide
  exact ⟨h0, h1,
    C8_stabilizer_cooldown c8_state c8_inputs 0 1 (by omega) (by decide) h0 h1
      (fun k hk1 hk2 => absurd (hk1.trans hk2) (by omega))⟩

end Tutor
